import Mathlib

/-!
Shallow embedding of the plugin manager of `cogs/plugin.py` (the `Plugina`
reference class and the `Plugin` cog).  External effects (HTTP fetches,
filesystem, the pip subprocess, discord.py extension loading) are modelled by
explicit state records, environment records that fix the outcome of each
fallible external step, and event traces.
-/

/-- The `Plugina` reference class: `Plugina.__init__(user, repo, name, branch)`.
`branch` defaults to `"master"` when `None` is passed; see `mkPlugina`. -/
structure Plugina where
  user : String
  repo : String
  name : String
  branch : String
deriving DecidableEq, Repr

/-- `Plugina.__init__` with its optional `branch` argument (`None` becomes `"master"`). -/
def mkPlugina (user repo name : String) (branch : Option String) : Plugina :=
  ⟨user, repo, name, branch.getD "master"⟩

/-- `Plugina.__str__`: the canonical form `user/repo/name@branch`. -/
def Plugina.str (p : Plugina) : String :=
  p.user ++ "/" ++ p.repo ++ "/" ++ p.name ++ "@" ++ p.branch

/-- `self.url`: the archive URL built in `Plugina.__init__`. -/
def Plugina.url (p : Plugina) : String :=
  "https://github.com/" ++ p.user ++ "/" ++ p.repo ++ "/archive/" ++ p.branch ++ ".zip"

/-- `Plugina.ext_string`: the logical extension identifier
`plugins.user.repo.name-branch.name`. -/
def Plugina.ext_string (p : Plugina) : String :=
  "plugins." ++ p.user ++ "." ++ p.repo ++ "." ++ p.name ++ "-" ++ p.branch ++ "." ++ p.name

/-- `Plugina.__eq__`: `isinstance(other, Plugina) and self.__str__() == other.__str__()`. -/
def Plugina.pyEq (a b : Plugina) : Bool :=
  a.str == b.str

/-- The tuple `(self.user, self.repo, self.name, self.branch)` that
`Plugina.__hash__` passes to `hash`.  Python's hash of the ref is a function
of exactly this tuple. -/
def Plugina.hashInput (p : Plugina) : String × String × String × String :=
  (p.user, p.repo, p.name, p.branch)

/-- `Plugina.__lt__`: `self.name.lower() < other.name.lower()`. -/
def Plugina.pyLt (a b : Plugina) : Bool :=
  decide (a.name.toLower < b.name.toLower)

/-!
`Plugina.from_string` applies the regex
`^(.+?)/(.+?)/(.+?)(?:@(.+?))?$` (lenient) or `^(.+?)/(.+?)/(.+?)@(.+?)$`
(strict) with Python's leftmost, lazy, backtracking semantics.  The lazy
groups make `user` the shortest nonempty prefix followed by `/` such that the
remainder still matches, and similarly for `repo`; the `name`/`branch` tail
takes the first `@` that leaves a nonempty branch (lenient: no such `@` means
no branch).
-/

/-- Tail of the lenient regex on the characters after `name`'s first char:
first `@` with a nonempty remainder splits name from branch; otherwise all
characters belong to `name`. -/
def nameBranchAux (acc : List Char) : List Char → List Char × Option (List Char)
  | [] => (acc, none)
  | c :: rest =>
    if c = '@' ∧ rest ≠ [] then (acc, some rest)
    else nameBranchAux (acc ++ [c]) rest

/-- Lenient `(.+?)(?:@(.+?))?$` on a candidate `name[@branch]` tail. -/
def nameBranch : List Char → Option (List Char × Option (List Char))
  | [] => none
  | c :: rest => some (nameBranchAux [c] rest)

/-- Tail of the strict regex: like `nameBranchAux` but the `@branch` part is
mandatory. -/
def nameBranchStrictAux (acc : List Char) : List Char → Option (List Char × List Char)
  | [] => none
  | c :: rest =>
    if c = '@' ∧ rest ≠ [] then some (acc, rest)
    else nameBranchStrictAux (acc ++ [c]) rest

/-- Strict `(.+?)@(.+?)$` on a candidate `name@branch` tail. -/
def nameBranchStrict : List Char → Option (List Char × List Char)
  | [] => none
  | c :: rest => nameBranchStrictAux [c] rest

/-- Lazy `(.+?)/` with backtracking: the shortest nonempty prefix followed by
a `/` whose remaining suffix satisfies `tailOk`. -/
def splitFirstValidAux (tailOk : List Char → Bool) (acc : List Char) :
    List Char → Option (List Char × List Char)
  | [] => none
  | c :: rest =>
    if c = '/' ∧ acc ≠ [] ∧ tailOk rest = true then some (acc, rest)
    else splitFirstValidAux tailOk (acc ++ [c]) rest

/-- Remainder check for the strict regex after `user/` and `repo/`. -/
def strictTailOk (t : List Char) : Bool :=
  (nameBranchStrict t).isSome

/-- Remainder check for the strict regex after `user/`. -/
def strictRepoOk (q : List Char) : Bool :=
  (splitFirstValidAux strictTailOk [] q).isSome

/-- Remainder check for the lenient regex after `user/` and `repo/`. -/
def lenientTailOk (t : List Char) : Bool :=
  !t.isEmpty

/-- Remainder check for the lenient regex after `user/`. -/
def lenientRepoOk (q : List Char) : Bool :=
  (splitFirstValidAux lenientTailOk [] q).isSome

/-- `Plugina.from_string(s, strict)`: `none` models the raised
`InvalidPluginError`. -/
def from_string (s : String) (strict : Bool) : Option Plugina :=
  if strict then
    match splitFirstValidAux strictRepoOk [] s.data with
    | none => none
    | some (u, q) =>
      match splitFirstValidAux strictTailOk [] q with
      | none => none
      | some (r, t) =>
        match nameBranchStrict t with
        | none => none
        | some (n, b) => some ⟨⟨u⟩, ⟨r⟩, ⟨n⟩, ⟨b⟩⟩
  else
    match splitFirstValidAux lenientRepoOk [] s.data with
    | none => none
    | some (u, q) =>
      match splitFirstValidAux lenientTailOk [] q with
      | none => none
      | some (r, t) =>
        match nameBranch t with
        | none => none
        | some (n, b) => some (mkPlugina ⟨u⟩ ⟨r⟩ ⟨n⟩ (b.map fun l => (⟨l⟩ : String)))

/-- A registry catalog row (`registry.json` / `plugin.json` value).  The
version ordering produced by `pkg_resources.parse_version` is modelled by
`Nat`; only the order matters to the code. -/
structure RegistryEntry where
  repository : String
  branch : Option String
  bot_version : Option Nat
deriving DecidableEq, Repr

/-- The in-memory catalog `self.registry`, keyed by short name. -/
abbrev Registry := List (String × RegistryEntry)

/-- Dict lookup `self.registry[plugin_name]`. -/
def regLookup (r : Registry) (n : String) : Option RegistryEntry :=
  List.lookup n r

/-- Python `s.split("/", maxsplit=1)` when it yields two parts; `none` models
the `ValueError` raised by unpacking a one-element result. -/
def splitOnceSlashAux (acc : List Char) : List Char → Option (List Char × List Char)
  | [] => none
  | c :: rest =>
    if c = '/' then some (acc, rest)
    else splitOnceSlashAux (acc ++ [c]) rest

/-- `user, repo = details["repository"].split("/", maxsplit=1)`. -/
def splitOnceSlash (s : String) : Option (String × String) :=
  match splitOnceSlashAux [] s.data with
  | none => none
  | some (a, b) => some (⟨a⟩, ⟨b⟩)

/-- The host (`self.bot`) facts the plugin cog reads.  (Named `BotState`
because `Bot` is taken by Mathlib.) -/
structure BotState where
  version : Nat
  enable_plugins : Bool
  cogs : List String
deriving DecidableEq, Repr

/-- The mutable state of the `Plugin` cog together with the host state it
mutates: the catalog, the `loaded_plugins` set, the `_ready_event` flag, the
persisted `bot.config["plugins"]` list, and the host's loaded extension
identifiers. -/
structure PluginCogState where
  registry : Registry
  loaded_plugins : List Plugina
  ready : Bool
  configPlugins : List String
  extensions : List String
deriving DecidableEq, Repr

/-- Membership in the Python set `self.loaded_plugins`, which uses
`Plugina.__eq__` (string-form equality). -/
def memberP (p : Plugina) (l : List Plugina) : Bool :=
  l.any fun q => Plugina.pyEq p q

/-- `self.loaded_plugins.add(plugin)`. -/
def insertP (p : Plugina) (l : List Plugina) : List Plugina :=
  if memberP p l then l else p :: l

/-- `self.loaded_plugins.remove(plugin)` (the `KeyError` on a missing member
is handled by the callers). -/
def removeP (p : Plugina) (l : List Plugina) : List Plugina :=
  l.filter fun q => !Plugina.pyEq p q

/-- `bot.load_extension` adding an extension identifier to the host. -/
def insertExt (e : String) (l : List String) : List String :=
  if e ∈ l then l else e :: l

/-- Environment fixing the outcomes of the external steps of
`Plugin.load_plugin`: entry-file existence, `requirements.txt` existence,
the pip subprocess's exit code and captured streams, and whether
`bot.load_extension` succeeds. -/
structure LoadEnv where
  entryExists : Bool
  reqExists : Bool
  pipExitCode : Nat
  pipStdout : String
  pipStderr : String
  extLoadOk : Bool
deriving DecidableEq, Repr

/-- The `InvalidPluginError` raised by `Plugin.load_plugin`, by cause. -/
inductive LoadError where
  | missingEntry
  | depInstall (stderr : String)
  | extLoad
deriving DecidableEq, Repr

/-- The dependency-install step of `Plugin.load_plugin` (lines 203-235):
when `requirements.txt` exists, exactly one pip subprocess is spawned with
stdout and stderr piped, and an `InvalidPluginError` embedding the decoded
stderr is raised exactly when the captured stderr is non-empty; the exit code
is never consulted.  Returns the number of subprocesses spawned and the
raised error, if any. -/
def installDeps (env : LoadEnv) : Nat × Option LoadError :=
  if env.reqExists then
    (1, if env.pipStderr ≠ "" then some (.depInstall env.pipStderr) else none)
  else (0, none)

/-- `Plugin.load_plugin`: entry-file check, dependency install, then
`bot.load_extension` followed by `self.loaded_plugins.add`.  Returns the
raised error (if any) and the resulting state; on every error path the state
is returned unchanged. -/
def load_plugin (st : PluginCogState) (p : Plugina) (env : LoadEnv) :
    Option LoadError × PluginCogState :=
  if !env.entryExists then (some .missingEntry, st)
  else
    match (installDeps env).2 with
    | some e => (some e, st)
    | none =>
      if env.extLoadOk ∧ p.ext_string ∉ st.extensions then
        (none,
          { st with
            extensions := insertExt p.ext_string st.extensions,
            loaded_plugins := insertP p st.loaded_plugins })
      else (some .extLoad, st)

/-- Outcome of `Plugin.parse_user_input`: the "still loading" embed, the
uncaught `ValueError` from unpacking a slash-less `repository`, the
version-too-low embed, the invalid-format embed, or a resolved ref. -/
inductive ParseOutcome where
  | stillLoading
  | raised
  | versionTooLow (required : Nat)
  | invalidFormat
  | resolved (p : Plugina)
deriving DecidableEq, Repr

/-- `Plugin.parse_user_input(ctx, plugin_name, check_version)` (lines
250-293): readiness check, registry lookup, repository split, optional
version gate (`bot.version < parse_version(required)`), ref construction;
otherwise fall back to lenient `Plugina.from_string`. -/
def parse_user_input (bot : BotState) (st : PluginCogState) (plugin_name : String)
    (check_version : Bool) : ParseOutcome :=
  if st.ready = false then .stillLoading
  else
    match regLookup st.registry plugin_name with
    | some details =>
      match splitOnceSlash details.repository with
      | none => .raised
      | some (user, repo) =>
        if check_version then
          match details.bot_version with
          | some required =>
            if bot.version < required then .versionTooLow required
            else .resolved (mkPlugina user repo plugin_name details.branch)
          | none => .resolved (mkPlugina user repo plugin_name details.branch)
        else .resolved (mkPlugina user repo plugin_name details.branch)
    | none =>
      match from_string plugin_name false with
      | some p => .resolved p
      | none => .invalidFormat

/-- Network events observable to the plugin archive host. -/
inductive NetEvent where
  | archiveFetch (url : String)
deriving DecidableEq, Repr

/-- Environment fixing the external outcomes of one install/update:
whether `download_plugin` succeeds, and the `load_plugin` environment. -/
structure UpdEnv where
  downloadOk : Bool
  load : LoadEnv
deriving Repr

/-- Outcome reported by `Plugin.plugins_add` (the `plugins add` command). -/
inductive AddOutcome where
  | parseFailed (o : ParseOutcome)
  | alreadyInstalled
  | dupCogName
  | downloadFailed
  | loadFailed
  | installedDisabled
  | installed
deriving DecidableEq, Repr

/-- `Plugin.plugins_add` (lines 307-384): resolve with version check, reject
duplicates and cog-name collisions, `download_plugin(force=True)` (one
archive fetch), append to `bot.config["plugins"]`, then load if
`enable_plugins`.  Returns the outcome, the final state, and the archive
fetches performed. -/
def plugins_add (bot : BotState) (st : PluginCogState) (env : UpdEnv) (plugin_name : String) :
    AddOutcome × PluginCogState × List NetEvent :=
  match parse_user_input bot st plugin_name true with
  | .resolved p =>
    if p.str ∈ st.configPlugins then (.alreadyInstalled, st, [])
    else if p.name ∈ bot.cogs then (.dupCogName, st, [])
    else
      let ev := [NetEvent.archiveFetch p.url]
      if !env.downloadOk then (.downloadFailed, st, ev)
      else
        let st1 := { st with configPlugins := st.configPlugins ++ [p.str] }
        if bot.enable_plugins then
          match load_plugin st1 p env.load with
          | (none, st2) => (.installed, st2, ev)
          | (some _, st1e) => (.loadFailed, st1e, ev)
        else (.installedDisabled, st1, ev)
  | o => (.parseFailed o, st, [])

/-- Exception escaping `Plugin.update_plugin` (aborting the caller). -/
inductive UpdError where
  | parseRaised
  | downloadError
  | loadError (e : LoadError)
deriving DecidableEq, Repr

/-- Outcome `Plugin.update_plugin` reports without raising. -/
inductive UpdOutcome where
  | parseFailed (o : ParseOutcome)
  | notInstalled
  | updated
deriving DecidableEq, Repr

/-- `Plugin.update_plugin` (lines 431-455): resolve with version re-check,
reject when not configured, `download_plugin(force=True)`, and — when
`enable_plugins` — `bot.unload_extension` (its `ExtensionError` only warned
about, and `self.loaded_plugins` left untouched) followed by `load_plugin`.
Returns the report-or-exception and the resulting state. -/
def update_plugin (bot : BotState) (st : PluginCogState) (env : UpdEnv) (plugin_name : String) :
    Except UpdError UpdOutcome × PluginCogState :=
  match parse_user_input bot st plugin_name true with
  | .raised => (.error .parseRaised, st)
  | .resolved p =>
    if p.str ∈ st.configPlugins then
      if !env.downloadOk then (.error .downloadError, st)
      else if bot.enable_plugins then
        let st1 := { st with extensions := st.extensions.erase p.ext_string }
        match load_plugin st1 p env.load with
        | (none, st2) => (.ok .updated, st2)
        | (some e, st1e) => (.error (.loadError e), st1e)
      else (.ok .updated, st)
    else (.ok .notInstalled, st)
  | o => (.ok (.parseFailed o), st)

/-- The `for plugin_name in self.bot.config["plugins"]` loop of
`Plugin.plugins_update` when no name is given (lines 469-472): each entry is
passed to `update_plugin`, and an exception raised there propagates, ending
the loop.  Returns the entries actually attempted, the final state, and the
escaping exception, if any. -/
def runUpdates (bot : BotState) (envs : String → UpdEnv) :
    PluginCogState → List String → List String × PluginCogState × Option UpdError
  | st, [] => ([], st, none)
  | st, n :: rest =>
    match update_plugin bot st (envs n) n with
    | (.ok _, st1) =>
      let r := runUpdates bot envs st1 rest
      (n :: r.1, r.2)
    | (.error e, st1) => ([n], st1, some e)

/-- `Plugin.plugins_update` with `plugin_name=None`: bulk update over the
configured plugin list. -/
def plugins_update_all (bot : BotState) (envs : String → UpdEnv) (st : PluginCogState) :
    List String × PluginCogState × Option UpdError :=
  runUpdates bot envs st st.configPlugins

/-- Filesystem facts `Plugin.download_plugin` consults for one ref: whether
its install directory (`plugin.abs_path`) and its cache file
(`plugin.cache_path`) exist. -/
structure PluginFS where
  installDirExists : Bool
  cacheExists : Bool
deriving DecidableEq, Repr

/-- The I/O steps of `Plugin.download_plugin`, in order of occurrence. -/
inductive FetchEvent where
  | mkdirInstall
  | cacheRead
  | httpGet
  | cacheWrite
  | extract
deriving DecidableEq, Repr

/-- `Plugin.download_plugin(plugin, force)` (lines 164-197) as a transition
on the ref's filesystem facts, together with the trace of I/O performed: an
existing install directory without `force` returns immediately; otherwise
the directory is created, the archive bytes come from the cache file (no
`force`) or from one HTTP GET followed by a cache write, and the archive is
extracted. -/
def download_plugin (fs : PluginFS) (force : Bool) : PluginFS × List FetchEvent :=
  if fs.installDirExists && !force then (fs, [])
  else if fs.cacheExists && !force then
    ({ installDirExists := true, cacheExists := fs.cacheExists },
      [.mkdirInstall, .cacheRead, .extract])
  else
    ({ installDirExists := true, cacheExists := true },
      [.mkdirInstall, .httpGet, .cacheWrite, .extract])

/-- One archive member: its path segments (`PurePath(info.filename).parts`)
and `info.is_dir()`. -/
structure ZipEntry where
  parts : List String
  isDir : Bool
deriving DecidableEq, Repr

/-- The extraction filter of `Plugin.download_plugin` (line 188):
`len(path.parts) >= 3 and path.parts[1] == plugin.name`. -/
def entryExtracted (pname : String) (e : ZipEntry) : Bool :=
  decide (3 ≤ e.parts.length) && decide (e.parts.get? 1 = some pname)

/-- The extraction loop of `Plugin.download_plugin` (lines 185-195): the
relative target paths written under the install directory, each the entry's
segments with the first two dropped (`Path(*path.parts[2:])`). -/
def extractTargets (pname : String) (entries : List ZipEntry) : List (List String) :=
  (entries.filter (entryExtracted pname)).map fun e => e.parts.drop 2

/-- The cache file's content on disk. -/
inductive CacheFile where
  | absent
  | present (bytes : List Nat)
deriving DecidableEq, Repr

/-- The cache write of `Plugin.download_plugin` (lines 182-183):
`plugin.cache_path.open("wb")` truncates whatever was there, then
`f.write(raw)` streams the downloaded bytes directly to the final path.
`failAfter = some k` models an I/O failure after `k` bytes were written:
the partial prefix stays on disk; no temporary path, rename, or cleanup is
involved, and the previous content `prev` is destroyed either way. -/
def writeCacheBytes (prev : CacheFile) (raw : List Nat) (failAfter : Option Nat) : CacheFile :=
  match prev, failAfter with
  | _, none => CacheFile.present raw
  | _, some k => CacheFile.present (raw.take k)

/-- Stable insertion by `Plugina.__lt__`, giving the result of Python's
stable `sorted(self.loaded_plugins)`. -/
def insertByLt (p : Plugina) : List Plugina → List Plugina
  | [] => [p]
  | q :: rest => if Plugina.pyLt p q then p :: q :: rest else q :: insertByLt p rest

/-- `sorted(self.loaded_plugins)` (ordering by `Plugina.__lt__`). -/
def sortLoaded (l : List Plugina) : List Plugina :=
  l.foldr insertByLt []

/-- One step of the page-accumulation loop of `Plugin.plugins_loaded`
(lines 506-512), on (closed pages, current page). -/
def pageStep (acc : List String × String) (m : String) : List String × String :=
  if m.length + acc.2.length + 3 ≤ 2048 then (acc.1, acc.2 ++ m)
  else (acc.1 ++ [acc.2 ++ "```"], "```\n" ++ m)

/-- The code-block pages built by `Plugin.plugins_loaded` (lines 505-515)
from the listed lines. -/
def buildPages (msgs : List String) : List String :=
  let acc := msgs.foldl pageStep ([], "```\n")
  if acc.2.takeRight 3 ≠ "```" then acc.1 ++ [acc.2 ++ "```"] else acc.1 ++ [acc.2]

/-- What `Plugin.plugins_loaded` (the `plugins loaded` command) sends. -/
inductive LoadedOutcome where
  | disabledMsg
  | stillLoading
  | emptyMsg
  | listing (pages : List String)
deriving DecidableEq, Repr

/-- `Plugin.plugins_loaded` (lines 478-524): the `ENABLE_PLUGINS=false`
embed comes first, then the readiness check, then the empty-set embed, then
the paginated listing of the sorted canonical strings. -/
def plugins_loaded (bot : BotState) (st : PluginCogState) : LoadedOutcome :=
  if bot.enable_plugins = false then .disabledMsg
  else if st.ready = false then .stillLoading
  else if st.loaded_plugins.isEmpty then .emptyMsg
  else .listing (buildPages ((sortLoaded st.loaded_plugins).map fun p => p.str ++ "\n"))

/-- `Plugin.__init__` (lines 99-111): empty catalog, empty loaded set, the
readiness event created unset. -/
def cogInit (cfg : List String) : PluginCogState :=
  { registry := [], loaded_plugins := [], ready := false, configPlugins := cfg,
    extensions := [] }

/-- One iteration of the first loop of `Plugin.initial_load_plugins`
(lines 126-136): entries that fail the strict parse are removed from
`bot.config["plugins"]`; the lenient re-parse there only logs. -/
def firstLoopStep (s : PluginCogState) (n : String) : PluginCogState :=
  match from_string n true with
  | some _ => s
  | none => { s with configPlugins := s.configPlugins.erase n }

/-- The fetch-and-load of one startup entry (lines 153-158): any exception
from `download_plugin` or `load_plugin` is logged and the loop continues. -/
def startupLoad (s : PluginCogState) (p : Plugina) (env : UpdEnv) : PluginCogState :=
  if !env.downloadOk then s
  else (load_plugin s p env.load).2

/-- One iteration of the second loop of `Plugin.initial_load_plugins`
(lines 138-158): strict parse, else removal plus lenient migration (appending
the canonical string), then fetch-and-load with failures isolated. -/
def secondLoopStep (envs : String → UpdEnv) (s : PluginCogState) (n : String) :
    PluginCogState :=
  match from_string n true with
  | some p => startupLoad s p (envs n)
  | none =>
    let s1 := { s with configPlugins := s.configPlugins.erase n }
    match from_string n false with
    | none => s1
    | some p =>
      let s2 := { s1 with configPlugins := s1.configPlugins ++ [p.str] }
      startupLoad s2 p (envs n)

/-- `Plugin.initial_load_plugins` (lines 123-162): both passes over (a copy
of) `bot.config["plugins"]`, then `self._ready_event.set()`. -/
def initial_load_plugins (envs : String → UpdEnv) (st : PluginCogState) : PluginCogState :=
  let s1 := st.configPlugins.foldl firstLoopStep st
  let s2 := s1.configPlugins.foldl (secondLoopStep envs) s1
  { s2 with ready := true }

/-- The startup scheduling in `Plugin.__init__` (lines 108-111): the
`initial_load_plugins` task is created only when `enable_plugins` is set;
otherwise only a log line is emitted.  The second component counts how often
`self._ready_event.set()` runs. -/
def startupTask (bot : BotState) (envs : String → UpdEnv) (st : PluginCogState) :
    PluginCogState × Nat :=
  if bot.enable_plugins then (initial_load_plugins envs st, 1) else (st, 0)

/-- `Plugin.populate_registry` (lines 113-116): the fetched official
document is assigned to `self.registry`, replacing it whole. -/
def populate_registry (st : PluginCogState) (fetched : Registry) : PluginCogState :=
  { st with registry := fetched }

/-- `Plugin.populate_vregistry` (lines 118-121): the fetched alternate
document is assigned to the same `self.registry` field, replacing it whole. -/
def populate_vregistry (st : PluginCogState) (fetched : Registry) : PluginCogState :=
  { st with registry := fetched }

/-- The loaded-set invariant of claim C1, stated for one ref: the ref is a
member of `self.loaded_plugins` exactly when its extension identifier is
loaded in the host. -/
def invFor (p : Plugina) (st : PluginCogState) : Prop :=
  memberP p st.loaded_plugins = true ↔ p.ext_string ∈ st.extensions

deriving instance DecidableEq for Except

/-! Helper lemmas and concrete fixtures shared by the claim theorems. -/

/-- `load_plugin` either fails leaving the state unchanged, or succeeds
adding exactly the ref to the loaded set and its identifier to the host. -/
theorem load_plugin_spec (st : PluginCogState) (p : Plugina) (env : LoadEnv) :
    ((load_plugin st p env).1 ≠ none ∧ (load_plugin st p env).2 = st) ∨
    ((load_plugin st p env).1 = none ∧
      (load_plugin st p env).2 =
        { st with extensions := insertExt p.ext_string st.extensions,
                  loaded_plugins := insertP p st.loaded_plugins }) := by
  unfold load_plugin
  split
  · exact .inl ⟨by simp, rfl⟩
  · split
    · exact .inl ⟨by simp, rfl⟩
    · split
      · exact .inr ⟨rfl, rfl⟩
      · exact .inl ⟨by simp, rfl⟩

theorem memberP_insert_self (p : Plugina) (l : List Plugina) :
    memberP p (insertP p l) = true := by
  unfold insertP
  split
  · next h => exact h
  · next h =>
    unfold memberP
    simp [Plugina.pyEq]

theorem mem_insertExt_self (e : String) (l : List String) : e ∈ insertExt e l := by
  unfold insertExt
  by_cases h : e ∈ l <;> simp [h]

def cexBot : BotState := { version := 0, enable_plugins := true, cogs := [] }

def cexP : Plugina := ⟨"u", "r", "a", "master"⟩

def cexSt : PluginCogState :=
  { registry := [], loaded_plugins := [cexP], ready := true,
    configPlugins := ["u/r/a@master"], extensions := ["plugins.u.r.a-master.a"] }

def goodEnv : UpdEnv :=
  { downloadOk := true,
    load := { entryExists := true, reqExists := false, pipExitCode := 0,
              pipStdout := "", pipStderr := "", extLoadOk := true } }

def cexEnvBadExt : UpdEnv :=
  { downloadOk := true,
    load := { entryExists := true, reqExists := false, pipExitCode := 0,
              pipStdout := "", pipStderr := "", extLoadOk := false } }

/-- Claim C1 (corrected), counterexample: in a state where `u/r/a@master` is
loaded and the invariant holds, `update_plugin` whose re-load step fails
(extension load error) unloads the extension from the host but leaves the
ref in `self.loaded_plugins`: membership no longer coincides with the
extension being loaded, so the invariant is not preserved by
`update_plugin`. -/
theorem loaded_set_invariant_counterexample :
    invFor cexP cexSt ∧
    (update_plugin cexBot cexSt cexEnvBadExt "u/r/a@master").1 =
      .error (.loadError .extLoad) ∧
    memberP cexP (update_plugin cexBot cexSt cexEnvBadExt "u/r/a@master").2.loaded_plugins
      = true ∧
    cexP.ext_string ∉ (update_plugin cexBot cexSt cexEnvBadExt "u/r/a@master").2.extensions := by
  constructor
  · unfold invFor
    decide
  · decide

/-- Claim C1 (corrected), amended: a failing `load_plugin` leaves the whole
state (in particular the loaded set) unchanged; a successful `load_plugin`
establishes, and any `load_plugin` preserves, the membership-iff-loaded
invariant for the ref; and `update_plugin` preserves the invariant for the
resolved ref when it succeeds — but not in general when its re-load fails,
as the counterexample shows, because it unloads the extension without
removing the ref from the loaded set. -/
theorem loaded_set_invariant_amended (st : PluginCogState) (p : Plugina) (env : LoadEnv)
    (bot : BotState) (uenv : UpdEnv) (name : String) :
    ((load_plugin st p env).1 ≠ none → (load_plugin st p env).2 = st) ∧
    ((load_plugin st p env).1 = none → invFor p (load_plugin st p env).2) ∧
    (invFor p st → invFor p (load_plugin st p env).2) ∧
    (parse_user_input bot st name true = .resolved p →
      bot.enable_plugins = true →
      (update_plugin bot st uenv name).1 = .ok .updated →
      invFor p (update_plugin bot st uenv name).2) := by
  have hsucc : (load_plugin st p env).1 = none →
      invFor p (load_plugin st p env).2 := by
    intro h
    rcases load_plugin_spec st p env with ⟨hne, _⟩ | ⟨_, hst⟩
    · exact absurd h hne
    · rw [hst]
      unfold invFor
      simp [memberP_insert_self, mem_insertExt_self]
  refine ⟨?_, hsucc, ?_, ?_⟩
  · intro h
    rcases load_plugin_spec st p env with ⟨_, hst⟩ | ⟨hn, _⟩
    · exact hst
    · exact absurd hn h
  · intro hinv
    rcases load_plugin_spec st p env with ⟨_, hst⟩ | ⟨hn, _⟩
    · rw [hst]; exact hinv
    · exact hsucc hn
  · intro hparse henable hupd
    simp only [update_plugin, hparse] at hupd ⊢
    by_cases hcfg : p.str ∈ st.configPlugins
    · simp only [if_pos hcfg] at hupd ⊢
      cases hdl : uenv.downloadOk with
      | false => simp [hdl] at hupd
      | true =>
        simp only [hdl, Bool.not_true, Bool.false_eq_true, if_false, henable, if_true] at hupd ⊢
        rcases hl : load_plugin
            { st with extensions := st.extensions.erase p.ext_string } p uenv.load
          with ⟨e, st2⟩
        cases e with
        | none =>
          simp only [hl] at hupd ⊢
          have h2 := load_plugin_spec
            { st with extensions := st.extensions.erase p.ext_string } p uenv.load
          rw [hl] at h2
          rcases h2 with ⟨hne, _⟩ | ⟨_, hst⟩
          · exact absurd rfl hne
          · have hst2 : st2 = _ := hst
            rw [hst2]
            unfold invFor
            simp [memberP_insert_self, mem_insertExt_self]
        | some e => simp [hl] at hupd
    · simp [hcfg] at hupd

/-- Witness for the amended C1 theorem: at a concrete loaded state the
invariant-preservation conjunct applies (here the load fails because the
extension is already loaded, so the state and the invariant are intact). -/
theorem loaded_set_invariant_amended_witness :
    invFor cexP cexSt ∧ invFor cexP (load_plugin cexSt cexP goodEnv.load).2 :=
  ⟨by unfold invFor; decide,
    (loaded_set_invariant_amended cexSt cexP goodEnv.load cexBot goodEnv "x").2.2.1
      (by unfold invFor; decide)⟩

/-- When no entry of the list makes `update_plugin` raise, the bulk-update
loop attempts every entry. -/
theorem runUpdates_ok_all (bot : BotState) (envs : String → UpdEnv) :
    ∀ (names : List String) (st0 : PluginCogState),
      (runUpdates bot envs st0 names).2.2 = none →
      (runUpdates bot envs st0 names).1 = names := by
  intro names
  induction names with
  | nil => intro st0 _; rfl
  | cons n rest ih =>
    intro st0 h
    rcases hu : update_plugin bot st0 (envs n) n with ⟨r, st1⟩
    cases r with
    | ok o =>
      simp only [runUpdates, hu] at h ⊢
      rw [ih st1 h]
    | error e => simp [runUpdates, hu] at h

/-- The entries the bulk-update loop attempts are always an initial prefix
of the configured list (nothing is skipped and then resumed). -/
theorem runUpdates_prefix (bot : BotState) (envs : String → UpdEnv) :
    ∀ (names : List String) (st0 : PluginCogState),
      (runUpdates bot envs st0 names).1 =
        names.take (runUpdates bot envs st0 names).1.length := by
  intro names
  induction names with
  | nil => intro st0; rfl
  | cons n rest ih =>
    intro st0
    rcases hu : update_plugin bot st0 (envs n) n with ⟨r, st1⟩
    cases r with
    | ok o =>
      simp only [runUpdates, hu, List.length_cons, List.take_succ_cons, List.cons.injEq,
        true_and]
      exact ih st1
    | error e => simp [runUpdates, hu]

def cexSt3 : PluginCogState :=
  { registry := [], loaded_plugins := [], ready := true,
    configPlugins := ["u/r/a@master", "u/r/b@master", "u/r/c@master"], extensions := [] }

def badDepEnv : UpdEnv :=
  { downloadOk := true,
    load := { entryExists := true, reqExists := true, pipExitCode := 1,
              pipStdout := "", pipStderr := "err", extLoadOk := true } }

def cexEnvs : String → UpdEnv := fun n => if n = "u/r/b@master" then badDepEnv else goodEnv

/-- Claim C5 (corrected), counterexample: with three configured plugins where
the second one's dependency install fails (`load_plugin` raises), the bulk
`plugins update` loop — which has no exception handling — attempts only the
first two entries; the third is never attempted, so one plugin's failure does
abort the remaining updates. -/
theorem bulk_update_isolation_counterexample :
    "u/r/c@master" ∈ cexSt3.configPlugins ∧
    (plugins_update_all cexBot cexEnvs cexSt3).1 = ["u/r/a@master", "u/r/b@master"] ∧
    (plugins_update_all cexBot cexEnvs cexSt3).2.2 =
      some (.loadError (.depInstall "err")) ∧
    "u/r/c@master" ∉ (plugins_update_all cexBot cexEnvs cexSt3).1 := by
  decide

/-- Claim C5 (corrected), amended: every configured entry is attempted in
order as long as no `update_plugin` call raises — failures that
`update_plugin` reports by returning (invalid name, version gate, not
installed) do not abort the loop — but an exception raised while updating one
plugin (for example a dependency-install failure) propagates out of the
un-guarded loop and aborts the updates of all remaining plugins, so the
attempted entries always form a prefix of the configured list. -/
theorem bulk_update_isolation_amended (bot : BotState) (envs : String → UpdEnv)
    (names : List String) (st0 : PluginCogState) :
    ((runUpdates bot envs st0 names).2.2 = none →
      (runUpdates bot envs st0 names).1 = names) ∧
    (runUpdates bot envs st0 names).1 =
      names.take (runUpdates bot envs st0 names).1.length ∧
    ((plugins_update_all bot envs st0).2.2 = none →
      (plugins_update_all bot envs st0).1 = st0.configPlugins) :=
  ⟨runUpdates_ok_all bot envs names st0, runUpdates_prefix bot envs names st0,
    runUpdates_ok_all bot envs st0.configPlugins st0⟩

/-- Witness for the amended C5 theorem: with no failing environment the bulk
update attempts all three configured entries. -/
theorem bulk_update_isolation_amended_witness :
    (runUpdates cexBot (fun _ => goodEnv) cexSt3 cexSt3.configPlugins).2.2 = none ∧
    (runUpdates cexBot (fun _ => goodEnv) cexSt3 cexSt3.configPlugins).1 =
      cexSt3.configPlugins :=
  ⟨by decide,
    (bulk_update_isolation_amended cexBot (fun _ => goodEnv) cexSt3.configPlugins cexSt3).1
      (by decide)⟩

def vgEntry : RegistryEntry :=
  { repository := "o/rep", branch := some "dev", bot_version := some 5 }

def vgSt : PluginCogState :=
  { registry := [("shiny", vgEntry)], loaded_plugins := [], ready := true,
    configPlugins := [], extensions := [] }

def vgBot : BotState := { version := 3, enable_plugins := true, cogs := [] }

/-- Claim C2 (confirmed): once the cog is ready, resolving a registry short
name whose entry requires a host version strictly above the bot's own, with
version checking enabled, yields the version-too-low outcome, and both the
install command and `update_plugin` stop there: the state is unchanged and no
archive fetch (indeed no network event at all) is performed. -/
theorem version_gate (bot : BotState) (st : PluginCogState) (name : String)
    (entry : RegistryEntry) (env uenv : UpdEnv) (v : Nat) (u r : String)
    (hready : st.ready = true)
    (hlook : regLookup st.registry name = some entry)
    (hrepo : splitOnceSlash entry.repository = some (u, r))
    (hver : entry.bot_version = some v)
    (hlow : bot.version < v) :
    parse_user_input bot st name true = .versionTooLow v ∧
    plugins_add bot st env name = (.parseFailed (.versionTooLow v), st, []) ∧
    update_plugin bot st uenv name = (.ok (.parseFailed (.versionTooLow v)), st) := by
  have hp : parse_user_input bot st name true = .versionTooLow v := by
    simp [parse_user_input, hready, hlook, hrepo, hver, hlow]
  exact ⟨hp, by simp [plugins_add, hp], by simp [update_plugin, hp]⟩

/-- Witness for C2: a concrete catalog entry requiring version 5 against a
host at version 3. -/
theorem version_gate_witness :
    parse_user_input vgBot vgSt "shiny" true = .versionTooLow 5 ∧
    plugins_add vgBot vgSt goodEnv "shiny" = (.parseFailed (.versionTooLow 5), vgSt, []) ∧
    update_plugin vgBot vgSt goodEnv "shiny" = (.ok (.parseFailed (.versionTooLow 5)), vgSt) :=
  version_gate vgBot vgSt "shiny" vgEntry goodEnv goodEnv 5 "o" "rep"
    (by decide) (by decide) (by decide) (by decide) (by decide)

/-- Claim C3 (confirmed): `download_plugin` without `force` is idempotent.
The first call always leaves the install directory in place; when it already
exists the call is an immediate no-op (state unchanged, no I/O at all); the
second call without `force` is therefore always a no-op, and two consecutive
calls perform at most one HTTP GET between them. -/
theorem download_idempotent (fs : PluginFS) :
    (download_plugin fs false).1.installDirExists = true ∧
    (fs.installDirExists = true → download_plugin fs false = (fs, [])) ∧
    download_plugin (download_plugin fs false).1 false = ((download_plugin fs false).1, []) ∧
    ((download_plugin fs false).2 ++
      (download_plugin (download_plugin fs false).1 false).2).count FetchEvent.httpGet ≤ 1 := by
  obtain ⟨i, c⟩ := fs
  cases i <;> cases c <;> decide

/-- Witness for C3 at a state whose install directory already exists. -/
theorem download_idempotent_witness :
    download_plugin ⟨true, false⟩ false = (⟨true, false⟩, []) :=
  (download_idempotent ⟨true, false⟩).2.1 (by decide)

/-- Claim C4 (confirmed): the extraction filter keeps exactly the archive
entries with at least three path segments whose second segment is the
plugin's name; each kept entry is written at its path with the first two
segments dropped; and an archive whose entries all belong to a different
plugin `other` yields no extracted files at all. -/
theorem extraction_scoping (pname other : String) (e : ZipEntry) (entries : List ZipEntry) :
    (entryExtracted pname e = true ↔
      3 ≤ e.parts.length ∧ e.parts.get? 1 = some pname) ∧
    (∀ t, t ∈ extractTargets pname entries ↔
      ∃ x, x ∈ entries ∧ entryExtracted pname x = true ∧ x.parts.drop 2 = t) ∧
    ((∀ x ∈ entries, x.parts.get? 1 = some other) → other ≠ pname →
      extractTargets pname entries = []) := by
  refine ⟨?_, ?_, ?_⟩
  · simp [entryExtracted]
  · intro t
    simp only [extractTargets, List.mem_map, List.mem_filter]
    constructor
    · rintro ⟨x, ⟨hx, hext⟩, ht⟩
      exact ⟨x, hx, hext, ht⟩
    · rintro ⟨x, hx, hext, ht⟩
      exact ⟨x, ⟨hx, hext⟩, ht⟩
  · intro hall hne
    have hnil : entries.filter (entryExtracted pname) = [] := by
      rw [List.filter_eq_nil_iff]
      intro x hx
      have h1 := hall x hx
      unfold entryExtracted
      simp only [Bool.and_eq_true, decide_eq_true_eq, not_and]
      intro _
      rw [h1]
      intro hc
      exact hne (Option.some.inj hc)
    simp [extractTargets, hnil]

def zipA : ZipEntry := { parts := ["rep-master", "a", "a.py"], isDir := false }

def zipB : ZipEntry := { parts := ["rep-master", "b", "b.py"], isDir := false }

/-- Witness for C4: fetching plugin `a` from an archive holding only plugin
`b` files extracts nothing, while the `a` entry itself passes the filter. -/
theorem extraction_scoping_witness :
    entryExtracted "a" zipA = true ∧ extractTargets "a" [zipB] = [] :=
  ⟨(extraction_scoping "a" "b" zipA [zipB]).1.mpr (by decide),
    (extraction_scoping "a" "b" zipA [zipB]).2.2 (by decide) (by decide)⟩

/-- Claim C6 (corrected), counterexample: the cache write is a direct
`open("wb")` plus `write(raw)`; a failure after one byte of a two-byte
archive leaves a one-byte file at the cache path — not the full archive, not
absent, and not the previous cache content, i.e. a corrupted cache entry. -/
theorem cache_write_atomicity_counterexample :
    writeCacheBytes (.present [9, 9]) [1, 2] (some 1) = .present [1] ∧
    CacheFile.present [1] ≠ .present [1, 2] ∧
    CacheFile.present [1] ≠ .absent ∧
    CacheFile.present [1] ≠ .present [9, 9] := by
  decide

/-- Claim C6 (corrected), amended: the downloaded bytes are written directly
to the final cache path with no temporary file, rename, or failure cleanup;
a write interrupted after `k` of the bytes leaves exactly that truncated
prefix on disk (a strictly incomplete archive whenever `k` is short of the
length, the previous content having been truncated away on open), while an
uninterrupted write stores the complete archive. -/
theorem cache_write_truncation_amended (prev : CacheFile) (raw : List Nat) (k : Nat)
    (h : k < raw.length) :
    writeCacheBytes prev raw (some k) = .present (raw.take k) ∧
    raw.take k ≠ raw ∧
    writeCacheBytes prev raw none = .present raw := by
  refine ⟨rfl, ?_, rfl⟩
  intro he
  have hlen := congrArg List.length he
  simp only [List.length_take] at hlen
  omega

/-- Witness for the amended C6 theorem at a concrete two-byte archive. -/
theorem cache_write_truncation_amended_witness :
    writeCacheBytes .absent [1, 2] (some 1) = .present (([1, 2] : List Nat).take 1) ∧
    ([1, 2] : List Nat).take 1 ≠ [1, 2] ∧
    writeCacheBytes .absent [1, 2] none = .present [1, 2] :=
  cache_write_truncation_amended .absent [1, 2] 1 (by decide)

/-- Claim C7 (corrected), counterexample: a pip run that fails (non-zero exit
code) but prints nothing on stderr raises no error at all — `load_plugin`
never consults the exit code — so "the raised error occurs exactly when the
install failed" is false on the code. -/
theorem dependency_installer_counterexample :
    installDeps badDepEnv.load = (1, some (.depInstall "err")) ∧
    installDeps { badDepEnv.load with pipStderr := "" } = (1, none) ∧
    ({ badDepEnv.load with pipStderr := "" } : LoadEnv).pipExitCode ≠ 0 := by
  decide

/-- Claim C7 (corrected), amended: without a `requirements.txt` the step is a
no-op spawning no subprocess; with one, exactly one pip subprocess runs with
its streams captured, and the error — which always carries the captured
stderr text — is raised exactly when that stderr is non-empty, the exit code
never being consulted (so a failed install with empty stderr goes
unreported, and a successful install with stderr warnings is reported as a
failure). -/
theorem dependency_installer_amended (env : LoadEnv) :
    (env.reqExists = false → installDeps env = (0, none)) ∧
    (env.reqExists = true →
      (installDeps env).1 = 1 ∧
      ((installDeps env).2 = some (.depInstall env.pipStderr) ↔ env.pipStderr ≠ "") ∧
      (∀ e, (installDeps env).2 = some e → e = .depInstall env.pipStderr)) := by
  constructor
  · intro h
    simp [installDeps, h]
  · intro h
    by_cases hs : env.pipStderr = "" <;> simp [installDeps, h, hs]

/-- Witness for the amended C7 theorem at a concrete failing environment. -/
theorem dependency_installer_amended_witness :
    (installDeps badDepEnv.load).1 = 1 ∧
    ((installDeps badDepEnv.load).2 = some (.depInstall badDepEnv.load.pipStderr) ↔
      badDepEnv.load.pipStderr ≠ "") ∧
    (∀ e, (installDeps badDepEnv.load).2 = some e →
      e = .depInstall badDepEnv.load.pipStderr) :=
  (dependency_installer_amended badDepEnv.load).2 (by decide)

/-- Claim C8 (corrected), counterexample: two refs whose four fields differ
— the `/` has merely moved between `user` and `repo` — share the canonical
string `a/b/c/n@m`, so `Plugina.__eq__` (which compares canonical strings)
deems them equal even though their fields are not, while `Plugina.__hash__`
hashes the two distinct field tuples, not the shared canonical string. -/
theorem ref_equality_counterexample :
    Plugina.pyEq ⟨"a/b", "c", "n", "m"⟩ ⟨"a", "b/c", "n", "m"⟩ = true ∧
    (⟨"a/b", "c", "n", "m"⟩ : Plugina) ≠ ⟨"a", "b/c", "n", "m"⟩ ∧
    Plugina.hashInput ⟨"a/b", "c", "n", "m"⟩ ≠ Plugina.hashInput ⟨"a", "b/c", "n", "m"⟩ := by
  decide

/-- Claim C8 (corrected), amended: two refs are equal exactly when their
canonical strings `owner/repo/name@branch` coincide (field-wise equality is
sufficient but, for fields containing the separators, not necessary); the
hash is a function of the four-field tuple, so field-equal refs hash equally
(but string-equal refs with different fields need not); display ordering
compares names case-insensitively. -/
theorem ref_equality_amended (a b : Plugina) :
    (Plugina.pyEq a b = true ↔ a.str = b.str) ∧
    (a = b → Plugina.pyEq a b = true) ∧
    (a = b → a.hashInput = b.hashInput) ∧
    (Plugina.pyLt a b = true ↔ a.name.toLower < b.name.toLower) := by
  refine ⟨?_, ?_, ?_, ?_⟩
  · simp [Plugina.pyEq]
  · rintro rfl
    simp [Plugina.pyEq]
  · rintro rfl
    rfl
  · simp [Plugina.pyLt]

/-- Witness for the amended C8 theorem at a concrete ref. -/
theorem ref_equality_amended_witness :
    Plugina.pyEq ⟨"u", "r", "a", "m"⟩ ⟨"u", "r", "a", "m"⟩ = true ∧
    Plugina.hashInput ⟨"u", "r", "a", "m"⟩ = Plugina.hashInput ⟨"u", "r", "a", "m"⟩ :=
  ⟨(ref_equality_amended ⟨"u", "r", "a", "m"⟩ ⟨"u", "r", "a", "m"⟩).2.1 rfl,
    (ref_equality_amended ⟨"u", "r", "a", "m"⟩ ⟨"u", "r", "a", "m"⟩).2.2.1 rfl⟩

def disabledBot : BotState := { version := 0, enable_plugins := false, cogs := [] }

/-- Claim C9 (corrected), counterexample: when extension loading is globally
disabled, the `initial_load_plugins` task is never created, so the readiness
event — false from construction — is set zero times, not exactly once; and
the list-loaded command, whose `ENABLE_PLUGINS=false` embed is checked before
the readiness event, reports the disabled condition rather than the distinct
"still loading" condition even though the event is unset. -/
theorem readiness_gate_counterexample :
    (cogInit ["x"]).ready = false ∧
    (startupTask disabledBot (fun _ => goodEnv) (cogInit ["x"])).2 = 0 ∧
    plugins_loaded disabledBot (cogInit ["x"]) = .disabledMsg ∧
    LoadedOutcome.disabledMsg ≠ .stillLoading := by
  decide

/-- Claim C9 (corrected), amended: the readiness event is false from
construction; when extension loading is enabled the startup pass runs and
sets it exactly once at its end, and before it is set the list-loaded
command reports the distinct "still loading" condition; when extension
loading is disabled no startup pass runs, the event is never set, and the
list-loaded command reports the disabled condition instead of "still
loading". -/
theorem readiness_gate_amended (bot : BotState) (envs : String → UpdEnv)
    (st : PluginCogState) (cfg : List String) :
    (cogInit cfg).ready = false ∧
    (bot.enable_plugins = true →
      (startupTask bot envs st).2 = 1 ∧ (startupTask bot envs st).1.ready = true) ∧
    (bot.enable_plugins = false → startupTask bot envs st = (st, 0)) ∧
    (bot.enable_plugins = true → st.ready = false →
      plugins_loaded bot st = .stillLoading) ∧
    (bot.enable_plugins = false → plugins_loaded bot st = .disabledMsg) := by
  refine ⟨rfl, ?_, ?_, ?_, ?_⟩
  · intro h
    constructor
    · simp [startupTask, h]
    · simp [startupTask, h, initial_load_plugins]
  · intro h
    simp [startupTask, h]
  · intro h hr
    simp [plugins_loaded, h, hr]
  · intro h
    simp [plugins_loaded, h]

/-- Witness for the amended C9 theorem: with plugins enabled, the startup
pass sets the event exactly once and the pre-startup state reports "still
loading". -/
theorem readiness_gate_amended_witness :
    (cogInit ["a"]).ready = false ∧
    (startupTask cexBot (fun _ => goodEnv) (cogInit ["a"])).2 = 1 ∧
    plugins_loaded cexBot (cogInit ["a"]) = .stillLoading :=
  ⟨(readiness_gate_amended cexBot (fun _ => goodEnv) (cogInit ["a"]) ["a"]).1,
    ((readiness_gate_amended cexBot (fun _ => goodEnv) (cogInit ["a"]) ["a"]).2.1 rfl).1,
    (readiness_gate_amended cexBot (fun _ => goodEnv) (cogInit ["a"]) ["a"]).2.2.2.1 rfl rfl⟩

/-- Claim C10 (confirmed): both registry refreshes assign the fetched
document to the single `self.registry` field, replacing the whole in-memory
catalog rather than merging; hence after refreshing either registry, a short
name absent from the newly fetched document no longer resolves, whatever the
previous catalog held. -/
theorem registry_replacement (st : PluginCogState) (d : Registry) (n : String) :
    (populate_registry st d).registry = d ∧
    (populate_vregistry st d).registry = d ∧
    populate_registry st d = populate_vregistry st d ∧
    (regLookup d n = none → regLookup (populate_registry st d).registry n = none) ∧
    (regLookup d n = none → regLookup (populate_vregistry st d).registry n = none) :=
  ⟨rfl, rfl, rfl, fun h => h, fun h => h⟩

/-- Witness for C10: `shiny` resolves from the old catalog but not after a
refresh replaces it with an empty document. -/
theorem registry_replacement_witness :
    regLookup vgSt.registry "shiny" = some vgEntry ∧
    (populate_vregistry vgSt []).registry = [] ∧
    regLookup (populate_vregistry vgSt []).registry "shiny" = none :=
  ⟨by decide, (registry_replacement vgSt [] "shiny").2.1,
    (registry_replacement vgSt [] "shiny").2.2.2.2 (by decide)⟩
